import Mathlib

/-!
Shallow embedding of the Rigel chat-bot backend (config.py, database.py,
ai_service.py, session_manager.py, main.py) and proofs about its
session/state coordination layer, parameter store and completion gateway.

Conventions of the embedding:
* Python objects become Lean structures; mutation becomes explicit state
  passing (each operation returns the new state).
* Every float literal in this system is a short decimal and the system only
  parses, stores and re-serialises floats (no arithmetic on them), so float
  values are modelled exactly as canonical decimal fractions
  `num / 10 ^ shift` (see `PyVal.pfloat`).
* Python dicts become association lists preserving insertion order.
* Outbound network calls (the completion API) are modelled by oracle
  arguments: a handler receives the function computing the external answer,
  so theorems quantify over every possible gateway behaviour.
* Exceptions of the external client library are modelled by an explicit
  outcome datatype; a raised exception is a constructor, never a Lean
  failure, so "never raises past its boundary" is expressed by totality of
  the embedded function into `String`.
-/

/-- A chat message as stored and as sent to the completion API: role and text
content. `Message.timestamp` orders messages in the store; the embedding keeps
each conversation's messages in a list in append order, which is the
timestamp order. -/
structure Msg where
  role : String
  content : String
deriving Repr, DecidableEq

/-- A Python value stored in the `ai_params` JSON blob: the string `model`
parameter, float parameters, and the integer `max_tokens` parameter.
A float is the exact decimal `num / 10 ^ shift` in canonical form (`shift`
is minimal: `shift = 0`, or the last decimal digit of `num` is nonzero), so
two equal float values have equal representations. -/
inductive PyVal where
  | pstr (s : String)
  | pfloat (num : Int) (shift : Nat)
  | pint (n : Int)
deriving Repr, DecidableEq

/-- The rational value of a `pfloat`; used to state value-level properties. -/
def pfloatVal (num : Int) (shift : Nat) : ℚ :=
  (num : ℚ) / 10 ^ shift

/-! ### Models of the Python builtins used by `UserSettings.set_param` -/

/-- Numeric value of a digit list, most significant digit first. -/
def digitsToNat (l : List Char) : Nat :=
  l.foldl (fun acc c => acc * 10 + (c.toNat - '0'.toNat)) 0

/-- Parses a non-empty all-digit character list. -/
def parseDigits (l : List Char) : Option Nat :=
  if !l.isEmpty && l.all Char.isDigit then some (digitsToNat l) else none

/-- Model of the Python builtin `int(str)` on plain decimal integer literals:
an optional sign followed by one or more digits; anything else (including a
string with a decimal point, such as `"7.5"`) raises `ValueError`, modelled
as `none`. Underscore separators and surrounding whitespace are outside the
model; no input reaching `set_param` uses them (free-text values are already
stripped, command arguments contain no whitespace). -/
def pyInt (s : String) : Option Int :=
  match s.data with
  | '-' :: rest => (parseDigits rest).map (fun n => -(n : Int))
  | '+' :: rest => (parseDigits rest).map (fun n => (n : Int))
  | l => (parseDigits l).map (fun n => (n : Int))

/-- Model of Python `str.strip()`: removes leading and trailing whitespace.
(Python strips all unicode whitespace; the relevant inputs carry ASCII
whitespace, which `Char.isWhitespace` covers.) -/
def pyStrip (s : String) : String :=
  String.mk
    (((s.data.dropWhile Char.isWhitespace).reverse.dropWhile Char.isWhitespace).reverse)

/-- Model of Python `str.startswith(pre)`. -/
def pyStartsWith (s pre : String) : Bool :=
  pre.data.isPrefixOf s.data

/-- Model of the Python slice `s[n:]` (drop the first `n` characters). -/
def pySliceFrom (s : String) (n : Nat) : String :=
  String.mk (s.data.drop n)

/-- Drops trailing `'0'` digits of a fraction part, canonicalising the
decimal representation. -/
def stripTrailingZeros (l : List Char) : List Char :=
  (l.reverse.dropWhile (fun c => c == '0')).reverse

/-- Unsigned part of `float(str)`: digits optionally containing one decimal
point (`"1"`, `"1.5"`, `"1."`, `".5"`); `none` models `ValueError`. The
result is the canonical pair `(num, shift)` with value `num / 10 ^ shift`. -/
def pyFloatCore (l : List Char) : Option (Nat × Nat) :=
  let intPart := l.takeWhile (fun c => c ≠ '.')
  match l.dropWhile (fun c => c ≠ '.') with
  | [] => (parseDigits intPart).map (fun n => (n, 0))
  | _ :: frac =>
      if (!intPart.isEmpty || !frac.isEmpty)
          && intPart.all Char.isDigit && frac.all Char.isDigit then
        let frac' := stripTrailingZeros frac
        some (digitsToNat intPart * 10 ^ frac'.length + digitsToNat frac',
              frac'.length)
      else none

/-- Model of the Python builtin `float(str)` on plain decimal literals with an
optional sign, returning the value as a canonical decimal fraction.
Exponent notation, `inf`/`nan` and underscore separators are outside the
model; no input in this system uses them. -/
def pyFloat (s : String) : Option (Int × Nat) :=
  match s.data with
  | '-' :: rest => (pyFloatCore rest).map (fun p => (-(p.1 : Int), p.2))
  | '+' :: rest => (pyFloatCore rest).map (fun p => ((p.1 : Int), p.2))
  | l => (pyFloatCore l).map (fun p => ((p.1 : Int), p.2))

/-! ### Python dict operations on the `ai_params` mapping -/

/-- `param in params` / `params[param]` read on a Python dict, modelled as an
insertion-ordered association list. -/
def dictGet (l : List (String × PyVal)) (k : String) : Option PyVal :=
  (l.find? (fun p => p.1 == k)).map (·.2)

/-- `params[param] = value`: a key already present keeps its position in the
dict order; a new key is appended. -/
def dictSet (l : List (String × PyVal)) (k : String) (v : PyVal) :
    List (String × PyVal) :=
  if (dictGet l k).isSome then l.map (fun p => if p.1 == k then (k, v) else p)
  else l ++ [(k, v)]

/-- config.DEFAULT_AI_PARAMS. -/
def DEFAULT_AI_PARAMS : List (String × PyVal) :=
  [("model", .pstr "gpt-3.5-turbo"), ("temperature", .pfloat 7 1),
   ("max_tokens", .pint 1000), ("top_p", .pfloat 1 0),
   ("frequency_penalty", .pfloat 0 0), ("presence_penalty", .pfloat 0 0)]

/-- Embeds `UserSettings.set_param` (database.py). `none` is every
`return False` path, on which the stored mapping is untouched; `some ps` is
the `return True` path, with `ps` the updated mapping written back to the
`ai_params` column. The branch structure follows the source: unknown key,
then `model` (string), then the four float parameters, then `max_tokens`
(int), then the defensive final `else: return False`. -/
def set_param (params : List (String × PyVal)) (param : String) (value : String) :
    Option (List (String × PyVal)) :=
  if (dictGet params param).isNone then none
  else if param == "model" then some (dictSet params param (.pstr value))
  else if param == "temperature" || param == "top_p"
      || param == "frequency_penalty" || param == "presence_penalty" then
    match pyFloat value with
    | some p => some (dictSet params param (.pfloat p.1 p.2))
    | none => none
  else if param == "max_tokens" then
    match pyInt value with
    | some n => some (dictSet params param (.pint n))
    | none => none
  else none

/-! ### config.py: languages, localized texts, `get_message` -/

/-- config.SUPPORTED_LANGUAGES. -/
def SUPPORTED_LANGUAGES : List String := ["zh", "en", "ru", "es", "fr", "de", "ja", "ko"]

/-- config.DEFAULT_LANGUAGE. -/
def DEFAULT_LANGUAGE : String := "zh"

/-- Scanner of Python `str.format(**kwargs)` on this repository's templates:
substitutes each `{name}` replacement field with `kwargs[name]`; an unknown
field name raises `KeyError`, modelled as `none` (the caller catches it).
Brace escapes, conversions and format specs do not occur in the templates
and are outside the model. Structural recursion on a fuel bound: every step
consumes at least one character, so fuel = length of the input (supplied by
`pyFormat`) never runs out and the `fuel = 0` arm is unreachable. -/
def pyFormatGo (kwargs : List (String × String)) : Nat → List Char → Option (List Char)
  | _, [] => some []
  | 0, l => some l
  | fuel + 1, c :: rest =>
    if c = '\x7b' then
      match rest.dropWhile (fun d => d ≠ '\x7d') with
      | [] => none
      | _ :: after =>
        match kwargs.find? (fun p =>
            p.1 == String.mk (rest.takeWhile (fun d => d ≠ '\x7d'))) with
        | some p => (pyFormatGo kwargs fuel after).map (fun t => p.2.data ++ t)
        | none => none
    else (pyFormatGo kwargs fuel rest).map (fun t => c :: t)

/-- Python `str.format(**kwargs)` on a template (see `pyFormatGo`). -/
def pyFormatCore (kwargs : List (String × String)) (l : List Char) :
    Option (List Char) :=
  pyFormatGo kwargs l.length l

/-- config.MESSAGES: the complete `zh` and `en` text tables of the source. -/
def MESSAGES : List (String × List (String × String)) :=
  [("zh",
    [("welcome", "欢迎使用AI聊天机器人！请使用 /setapi 命令设置您的API密钥。"),
     ("api_request", "请输入您的OpenAI API密钥:"),
     ("api_set_success", "API密钥设置成功！现在您可以开始聊天了。"),
     ("api_invalid", "API密钥无效，请重新设置。"),
     ("chat_start", "AI聊天已开始，您可以随时发送消息。使用 /help 查看更多命令。"),
     ("chat_reset", "聊天历史已重置。"),
     ("help_message", "\n可用命令列表:\n/start - 开始使用机器人\n/setapi - 设置OpenAI API密钥\n/reset - 重置当前对话\n/params - 查看或修改AI参数\n/setlang - 设置语言\n/help - 显示帮助信息\n        "),
     ("params_current", "当前AI参数设置:\n{params}"),
     ("params_usage", "/params [参数名] [值] - 修改AI参数\n可用参数: model, temperature, max_tokens, top_p, frequency_penalty, presence_penalty"),
     ("params_set_success", "参数 {param} 已更新为 {value}"),
     ("params_invalid", "无效的参数或值。"),
     ("language_set", "语言已设置为中文。"),
     ("language_prompt", "请选择语言:"),
     ("processing", "正在处理您的请求..."),
     ("error", "发生错误: {error}")]),
   ("en",
    [("welcome", "Welcome to the AI Chat Bot! Please use the /setapi command to set your API key."),
     ("api_request", "Please enter your OpenAI API key:"),
     ("api_set_success", "API key set successfully! You can now start chatting."),
     ("api_invalid", "Invalid API key, please set it again."),
     ("chat_start", "AI chat started, you can send messages anytime. Use /help to see more commands."),
     ("chat_reset", "Chat history has been reset."),
     ("help_message", "\nAvailable commands:\n/start - Start using the bot\n/setapi - Set OpenAI API key\n/reset - Reset current conversation\n/params - View or modify AI parameters\n/setlang - Set language\n/help - Show help information\n        "),
     ("params_current", "Current AI parameters:\n{params}"),
     ("params_usage", "/params [parameter] [value] - Modify AI parameters\nAvailable parameters: model, temperature, max_tokens, top_p, frequency_penalty, presence_penalty"),
     ("params_set_success", "Parameter {param} has been updated to {value}"),
     ("params_invalid", "Invalid parameter or value."),
     ("language_set", "Language set to English."),
     ("language_prompt", "Please select a language:"),
     ("processing", "Processing your request..."),
     ("error", "An error occurred: {error}")])]

/-- config.get_message: picks the language table (falling back to the default
language when `lang` has no table), then the key (falling back to the English
table, then to a "not found" text), then — when keyword arguments are given —
applies `str.format`; the source catches `KeyError` and keeps the raw text. -/
def get_message (lang key : String) (kwargs : List (String × String)) : String :=
  let lang := if (MESSAGES.find? (fun p => p.1 == lang)).isNone then DEFAULT_LANGUAGE else lang
  let table := ((MESSAGES.find? (fun p => p.1 == lang)).map (·.2)).getD []
  let message :=
    match table.find? (fun p => p.1 == key) with
    | some p => p.2
    | none =>
        let en := ((MESSAGES.find? (fun p => p.1 == "en")).map (·.2)).getD []
        match en.find? (fun p => p.1 == key) with
        | some p => p.2
        | none => "Message \x27" ++ key ++ "\x27 not found"
  if kwargs.isEmpty then message
  else
    match pyFormatCore kwargs message.data with
    | some l => String.mk l
    | none => message

/-! ### database.py: persistent store and `DatabaseManager` operations -/

/-- A row of the `users` table together with its one-to-one `user_settings`
row (`UserSettings` is created in `User.__init__`; its `ai_params` column
defaults to `json.dumps(DEFAULT_AI_PARAMS)`, modelled directly as the
mapping). The surrogate primary key and the profile columns play no role in
any claim; users are keyed by their unique `telegram_id`. -/
structure UserRec where
  api_key : Option String := none
  language_code : String := DEFAULT_LANGUAGE
  ai_params : List (String × PyVal) := DEFAULT_AI_PARAMS
deriving Repr, DecidableEq

/-- The persistent store: users keyed by telegram id; conversations keyed by
their autoincrement primary key (next free key in `nextConvId`, starting at
1 as in SQLite), each holding its messages in timestamp (= append) order. -/
structure DBState where
  users : List (String × UserRec) := []
  conversations : List (Nat × List Msg) := []
  nextConvId : Nat := 1
deriving Repr, DecidableEq

/-- `session.query(User).filter_by(telegram_id=..).first()`. -/
def dbFindUser (db : DBState) (tid : String) : Option UserRec :=
  (db.users.find? (fun p => p.1 == tid)).map (·.2)

/-- Commit of a mutation of one user row. -/
def dbUpdateUser (db : DBState) (tid : String) (f : UserRec → UserRec) : DBState :=
  { db with users := db.users.map (fun p => if p.1 == tid then (p.1, f p.2) else p) }

/-- DatabaseManager.set_api_key: writes the credential of an existing user;
`false` (no write) for an unknown user. -/
def set_api_key (db : DBState) (tid key : String) : Bool × DBState :=
  if (dbFindUser db tid).isSome then
    (true, dbUpdateUser db tid (fun u => { u with api_key := some key }))
  else (false, db)

/-- DatabaseManager.get_api_key: `user.api_key if user else None`. -/
def get_api_key (db : DBState) (tid : String) : Option String :=
  (dbFindUser db tid).bind (·.api_key)

/-- DatabaseManager.create_conversation: inserts an empty conversation owned
by an existing user and returns its fresh primary key; `none` for an unknown
user. -/
def create_conversation (db : DBState) (tid : String) : Option Nat × DBState :=
  if (dbFindUser db tid).isSome then
    (some db.nextConvId,
     { db with conversations := db.conversations ++ [(db.nextConvId, [])],
               nextConvId := db.nextConvId + 1 })
  else (none, db)

/-- DatabaseManager.add_message: appends one message to an existing
conversation; `false` (no write) for an unknown conversation. -/
def add_message (db : DBState) (cid : Nat) (role content : String) : Bool × DBState :=
  if (db.conversations.find? (fun p => p.1 == cid)).isSome then
    let convs := db.conversations.map
      (fun p => if p.1 == cid then (p.1, p.2 ++ [⟨role, content⟩]) else p)
    (true, { db with conversations := convs })
  else (false, db)

/-- Conversation.get_messages_for_api: the `{"role": .., "content": ..}`
projection of the conversation's messages, in order. -/
def get_messages_for_api (msgs : List Msg) : List Msg :=
  msgs.map (fun m => { role := m.role, content := m.content })

/-- DatabaseManager.get_conversation_messages: `get_messages_for_api` of an
existing conversation, `[]` for an unknown one. -/
def get_conversation_messages (db : DBState) (cid : Nat) : List Msg :=
  match db.conversations.find? (fun p => p.1 == cid) with
  | some p => get_messages_for_api p.2
  | none => []

/-- DatabaseManager.get_user_settings composed with
`UserSettings.get_ai_params` (`json.loads` of the `ai_params` column,
modelled directly as the mapping): the caller in main.py uses the returned
settings object only through `get_ai_params()`. -/
def get_user_settings (db : DBState) (tid : String) : Option (List (String × PyVal)) :=
  (dbFindUser db tid).map (·.ai_params)

/-- DatabaseManager.set_user_param: runs `UserSettings.set_param` on an
existing user's settings and commits only when it succeeds. -/
def set_user_param (db : DBState) (tid param value : String) : Bool × DBState :=
  match dbFindUser db tid with
  | some u =>
    match set_param u.ai_params param value with
    | some ps => (true, dbUpdateUser db tid (fun v => { v with ai_params := ps }))
    | none => (false, db)
  | none => (false, db)

/-- DatabaseManager.set_language: writes the language code of an existing
user; `false` (no write) for an unknown user. -/
def set_language (db : DBState) (tid code : String) : Bool × DBState :=
  if (dbFindUser db tid).isSome then
    (true, dbUpdateUser db tid (fun u => { u with language_code := code }))
  else (false, db)

/-- DatabaseManager.get_language: the user's language code, or the default
language for an unknown user. -/
def get_language (db : DBState) (tid : String) : String :=
  match dbFindUser db tid with
  | some u => u.language_code
  | none => DEFAULT_LANGUAGE

/-! ### session_manager.py: per-user sessions and cached AI clients -/

/-- session_manager.UserState. -/
inductive UserState where
  | IDLE
  | WAITING_API_KEY
  | WAITING_PARAM_VALUE
  | SELECTING_LANGUAGE
  | CHATTING
deriving Repr, DecidableEq

/-- session_manager.UserSession: in-memory per-user state — current state,
the active conversation handle, and transitional data (the dict
`temp_data`). -/
structure UserSession where
  state : UserState := .IDLE
  conversation_id : Option Nat := none
  temp_data : List (String × String) := []
deriving Repr, DecidableEq

/-- The process-wide mutable state: the store (`DatabaseManager`), the
session map and the cached AI clients of `SessionManager` (a client is
modelled by the api key it was constructed with — `none` for
`AIService(None)`, whose `self.client` stays unset). -/
structure World where
  db : DBState := {}
  sessions : List (String × UserSession) := []
  ai_services : List (String × Option String) := []
deriving Repr, DecidableEq

/-- SessionManager.get_user_session: the user's session, creating a fresh
IDLE one when absent. -/
def get_user_session (w : World) (tid : String) : UserSession × World :=
  match w.sessions.find? (fun p => p.1 == tid) with
  | some p => (p.2, w)
  | none => ({}, { w with sessions := w.sessions ++ [(tid, {})] })

/-- Mutation of the (present) session object of one user. -/
def updateSession (w : World) (tid : String) (f : UserSession → UserSession) : World :=
  { w with sessions := w.sessions.map (fun p => if p.1 == tid then (p.1, f p.2) else p) }

/-- SessionManager.create_conversation: creates a store conversation and, when
the returned id is truthy, binds it to the user's session object. -/
def sm_create_conversation (w : World) (tid : String) : Option Nat × World :=
  let r := create_conversation w.db tid
  let w1 := { w with db := r.2 }
  match r.1 with
  | some c =>
    if c ≠ 0 then
      let (_, w2) := get_user_session w1 tid
      (some c, updateSession w2 tid (fun s => { s with conversation_id := some c }))
    else (some c, w1)
  | none => (none, w1)

/-- SessionManager.update_ai_service: rebinds the user's cached client to the
new api key, creating the cache entry when absent. -/
def update_ai_service (w : World) (tid key : String) : World :=
  if (w.ai_services.find? (fun p => p.1 == tid)).isSome then
    let svcs := w.ai_services.map (fun p => if p.1 == tid then (p.1, some key) else p)
    { w with ai_services := svcs }
  else { w with ai_services := w.ai_services ++ [(tid, some key)] }

/-- SessionManager.get_ai_service: the user's cached client, constructing one
from the stored api key on a cache miss. -/
def get_ai_service (w : World) (tid : String) : Option String × World :=
  match w.ai_services.find? (fun p => p.1 == tid) with
  | some p => (p.2, w)
  | none =>
    let k := get_api_key w.db tid
    (k, { w with ai_services := w.ai_services ++ [(tid, k)] })

/-! ### ai_service.py: the completion gateway -/

/-- Outcome of the external `client.chat.completions.create` call: a response
carrying its (possibly empty) list of choice texts, an `APIError`, or any
other exception. -/
inductive CompletionOutcome where
  | success (choices : List String)
  | apiError (e : String)
  | exn (e : String)
deriving Repr, DecidableEq

/-- The `self.client is None` reply of `AIService.chat_completion`. -/
def noApiKeyText : String := "API密钥未设置，请使用 /setapi 命令设置您的OpenAI API密钥。"

/-- The `not response.choices` reply of `AIService.chat_completion`. -/
def noChoicesText : String := "AI没有生成响应。"

/-- The `except APIError` reply of `AIService.chat_completion`. -/
def apiErrorText (e : String) : String := "OpenAI API错误: " ++ e

/-- The `except Exception` reply of `AIService.chat_completion`. -/
def unexpectedErrorText (e : String) : String := "请求处理错误: " ++ e

/-- `request_params = DEFAULT_AI_PARAMS.copy(); request_params.update(params)`
in `AIService.chat_completion` (the caller-supplied parameters merged over
the fixed defaults; `params = None` or `{}` leaves the defaults). -/
def mergeParams (params : Option (List (String × PyVal))) : List (String × PyVal) :=
  match params with
  | none => DEFAULT_AI_PARAMS
  | some ps => ps.foldl (fun acc kv => dictSet acc kv.1 kv.2) DEFAULT_AI_PARAMS

/-- AIService.chat_completion. `client` is `self.client` (modelled by the key
it was built with, `none` when unset); `outcome` is what the one external
request does when issued with the merged parameters. Total into `String`:
every failure mode comes back as returned text, never as a raised
exception. -/
def chat_completion (client : Option String) (messages : List Msg)
    (params : Option (List (String × PyVal))) (outcome : CompletionOutcome) : String :=
  match client with
  | none => noApiKeyText
  | some _ =>
    match outcome with
    | .success [] => noChoicesText
    | .success (first :: _) => first
    | .apiError e => apiErrorText e
    | .exn e => unexpectedErrorText e

/-- Outcome of the external `client.models.list()` call in
`AIService.validate_api_key`. -/
inductive ValidationOutcome where
  | ok
  | apiError (e : String)
  | exn (e : String)
deriving Repr, DecidableEq

/-- AIService.validate_api_key: `True` exactly when the models-list call
succeeds; `False` on `APIError` and on any other exception — total into
`Bool`, never raising to the caller. -/
def validate_api_key (outcome : ValidationOutcome) : Bool :=
  match outcome with
  | .ok => true
  | .apiError _ => false
  | .exn _ => false

/-! ### main.py: the dispatch layer -/

/-- Result of one inbound-event handler: the new world and the chronological
list of texts shown to the user (`reply_text` payloads followed by
`edit_text` payloads; the user-visible final content is the last element).
`gatewayCall` records the argument of the one `chat_completion` call of a
chat turn, when one is made. -/
structure HandlerResult where
  world : World
  replies : List String
  gatewayCall : Option (List Msg × Option (List (String × PyVal))) := none
deriving Repr, DecidableEq

/-- main.handle_language_selection: fires on any callback whose data matches
the registration pattern `^lang_` (main.main registers it with
`CallbackQueryHandler(handle_language_selection, pattern="^lang_")`);
persists the chosen language, confirms in that language, and sets the
session state to IDLE. The source contains no check of the current session
state. -/
def handle_language_selection (w : World) (tid callback_data : String) : HandlerResult :=
  if pyStartsWith callback_data "lang_" then
    let lang_code := pySliceFrom callback_data 5
    let r := set_language w.db tid lang_code
    let w1 := { w with db := r.2 }
    let (_, w2) := get_user_session w1 tid
    let w3 := updateSession w2 tid (fun s => { s with state := .IDLE })
    { world := w3, replies := [get_message lang_code "language_set" []] }
  else { world := w, replies := [] }

/-- Python truthiness of an optional conversation id
(`if conversation_id:` / `if not conversation_id:`): `None` and `0` are
falsy. -/
def truthyId : Option Nat → Bool
  | some n => n != 0
  | none => false

/-- Tail of the chat turn in main.handle_message once a truthy conversation
id is at hand: send the processing placeholder, append the user message,
read the history, read the user's parameters (None when the user row is
absent), fetch the cached client, call the gateway, append the assistant
message, edit the placeholder to the gateway's reply. -/
def chat_turn_core (w : World) (tid text lang : String) (cid : Nat)
    (complete : List Msg → Option (List (String × PyVal)) → String) : HandlerResult :=
  let processing := get_message lang "processing" []
  let r1 := add_message w.db cid "user" text
  let messages := get_conversation_messages r1.2 cid
  let ai_params := get_user_settings r1.2 tid
  let (_, w1) := get_ai_service { w with db := r1.2 } tid
  let response := complete messages ai_params
  let r2 := add_message w1.db cid "assistant" response
  { world := { w1 with db := r2.2 },
    replies := [processing, response],
    gatewayCall := some (messages, ai_params) }

/-- Middle of the chat turn in main.handle_message, from
`conversation_id = session.get_conversation_id()` on: when the bound id is
falsy, create and bind a fresh conversation (reporting an error and aborting
the turn when creation fails), then run the turn. -/
def chat_turn_bound (w : World) (tid text lang : String)
    (complete : List Msg → Option (List (String × PyVal)) → String) : HandlerResult :=
  let s := ((w.sessions.find? (fun p => p.1 == tid)).map (·.2)).getD {}
  if !truthyId s.conversation_id then
    let r := sm_create_conversation w tid
    if !truthyId r.1 then
      { world := r.2, replies := [get_message lang "error" [("error", "无法创建对话")]] }
    else
      let w2 := updateSession r.2 tid (fun t => { t with conversation_id := some (r.1.getD 0) })
      chat_turn_core w2 tid text lang (r.1.getD 0) complete
  else
    chat_turn_core w tid text lang (s.conversation_id.getD 0) complete

/-- The `CHATTING`/`IDLE` arm of main.handle_message. In IDLE the source
first creates (and thereby binds) a fresh conversation unconditionally —
aborting with an error reply when creation fails — and moves the session to
CHATTING; then both states continue at `chat_turn_bound`. -/
def chat_turn (w : World) (tid text lang : String)
    (complete : List Msg → Option (List (String × PyVal)) → String)
    (isIdle : Bool) : HandlerResult :=
  if isIdle then
    let r := sm_create_conversation w tid
    if !truthyId r.1 then
      { world := r.2, replies := [get_message lang "error" [("error", "无法创建对话")]] }
    else
      let w2 := updateSession r.2 tid (fun s => { s with state := .CHATTING })
      chat_turn_bound w2 tid text lang complete
  else chat_turn_bound w tid text lang complete

/-- main.handle_message: dispatch of a free-text message on the session
state. `validate` abstracts the network outcome of
`AIService().validate_api_key(api_key)` for each candidate key and
`complete` abstracts `ai_service.chat_completion(messages, ai_params)` for
the user's client, so the theorems below hold for every behaviour of the
external API. States with no arm in the source (SELECTING_LANGUAGE) fall
through with no action. -/
def handle_message (w : World) (tid text : String)
    (validate : String → Bool)
    (complete : List Msg → Option (List (String × PyVal)) → String) : HandlerResult :=
  let (session, w0) := get_user_session w tid
  let lang := get_language w0.db tid
  match session.state with
  | .WAITING_API_KEY =>
    let api_key := pyStrip text
    let processing := get_message lang "processing" []
    if validate api_key then
      let r := set_api_key w0.db tid api_key
      let w1 := update_ai_service { w0 with db := r.2 } tid api_key
      let w2 := (sm_create_conversation w1 tid).2
      let w3 := updateSession w2 tid (fun s => { s with state := .CHATTING })
      { world := w3, replies := [processing, get_message lang "api_set_success" []] }
    else
      { world := w0, replies := [processing, get_message lang "api_invalid" []] }
  | .WAITING_PARAM_VALUE =>
    let value := pyStrip text
    let finish (w' : World) (reply : String) : HandlerResult :=
      let w'' := updateSession w' tid (fun s => { s with state := .IDLE, temp_data := [] })
      { world := w'', replies := [reply] }
    match session.temp_data.find? (fun p => p.1 == "param") with
    | some p =>
      let r := set_user_param w0.db tid p.2 value
      let reply :=
        if r.1 then get_message lang "params_set_success" [("param", p.2), ("value", value)]
        else get_message lang "params_invalid" []
      finish { w0 with db := r.2 } reply
    | none =>
      -- `get_temp_data` returns None; `set_param(None, value)` then hits
      -- `param not in params` and returns False, so the store is untouched.
      finish w0 (get_message lang "params_invalid" [])
  | .CHATTING => chat_turn w0 tid text lang complete false
  | .IDLE => chat_turn w0 tid text lang complete true
  | .SELECTING_LANGUAGE => { world := w0, replies := [] }

/-! ### Concrete instances used by the closed theorems below -/

/-- A user record with no stored credential and the default settings. -/
def uDefault : UserRec := {}

/-- A store with one user `"u"` and one conversation `1` holding two turns. -/
def dbChat : DBState :=
  { users := [("u", uDefault)],
    conversations := [(1, [⟨"user", "hi"⟩, ⟨"assistant", "yo"⟩])],
    nextConvId := 2 }

/-- A world where `"u"` is CHATTING on conversation 1. -/
def wChat : World :=
  { db := dbChat,
    sessions := [("u", { state := .CHATTING, conversation_id := some 1 })],
    ai_services := [("u", some "k")] }

/-- A world where `"u"` is IDLE while conversation 1 is still bound to the
session. -/
def wIdle : World :=
  { db := dbChat,
    sessions := [("u", { state := .IDLE, conversation_id := some 1 })],
    ai_services := [("u", some "k")] }

/-- A world where `"u"` is awaiting an API key. -/
def wKey : World :=
  { db := { users := [("u", uDefault)] },
    sessions := [("u", { state := .WAITING_API_KEY })] }

/-- A world where `"u"` is awaiting the value of pending parameter
`temperature`. -/
def wParam : World :=
  { db := { users := [("u", uDefault)] },
    sessions := [("u", { state := .WAITING_PARAM_VALUE,
                         temp_data := [("param", "temperature")] })] }

/-- A store with one user `"u"` and one empty conversation `1`. -/
def dbEmptyConv : DBState :=
  { users := [("u", uDefault)], conversations := [(1, [])], nextConvId := 2 }

section helperLemmas

variable {α β : Type} [BEq α] [LawfulBEq α]

lemma find?_map_update (l : List (α × β)) (k : α) (f : β → β) (x : β)
    (h : l.find? (fun p => p.1 == k) = some (k, x)) :
    (l.map (fun p => if p.1 == k then (p.1, f p.2) else p)).find? (fun p => p.1 == k)
      = some (k, f x) := by
  induction l with
  | nil => simp at h
  | cons a l ih =>
    obtain ⟨ka, va⟩ := a
    rw [List.find?_cons] at h
    by_cases hk : (ka == k) = true
    · simp only [List.map_cons]
      simp only [hk, if_true] at h ⊢
      injection h with h'
      injection h' with hka hva
      subst hka; subst hva
      simp
    · simp only [List.map_cons]
      simp only [hk, Bool.false_eq_true, if_false] at h ⊢
      rw [List.find?_cons_of_neg (p := fun p => p.1 == k) (a := (ka, va)) _ hk]
      exact ih h

lemma find?_map_set (l : List (α × β)) (k : α) (v : β)
    (h : (l.find? (fun p => p.1 == k)).isSome = true) :
    (l.map (fun p => if p.1 == k then (k, v) else p)).find? (fun p => p.1 == k)
      = some (k, v) := by
  induction l with
  | nil => simp at h
  | cons a l ih =>
    obtain ⟨ka, va⟩ := a
    by_cases hk : (ka == k) = true
    · simp only [List.map_cons]
      simp only [hk, if_true]
      exact List.find?_cons_of_pos _ (by simp)
    · rw [List.find?_cons_of_neg (p := fun p => p.1 == k) (a := (ka, va)) _ hk] at h
      simp only [List.map_cons]
      simp only [hk, Bool.false_eq_true, if_false]
      rw [List.find?_cons_of_neg (p := fun p => p.1 == k) (a := (ka, va)) _ hk]
      exact ih h

end helperLemmas

lemma get_messages_for_api_id (l : List Msg) : get_messages_for_api l = l := by
  induction l with
  | nil => rfl
  | cons m l ih => simp only [get_messages_for_api, List.map_cons] at ih ⊢; rw [ih]

lemma dictGet_dictSet (l : List (String × PyVal)) (k : String) (v : PyVal) :
    dictGet (dictSet l k v) k = some v := by
  unfold dictSet
  by_cases h : (dictGet l k).isSome
  · rw [if_pos h]
    unfold dictGet at h ⊢
    rw [find?_map_set _ _ _ (by simpa using h)]
    rfl
  · rw [if_neg h]
    unfold dictGet at h ⊢
    rcases h' : l.find? (fun p => p.1 == k) with _ | p
    · simp [List.find?_append, h']
    · rw [h'] at h; simp at h

/-! ### Distinctness of the gateway's error texts -/

lemma noChoices_ne_apiError (e : String) : noChoicesText ≠ apiErrorText e := by
  intro h
  have h2 := congrArg (fun s => s.data.head?) h
  simp only [noChoicesText, apiErrorText, String.data_append] at h2
  rw [show ("AI没有生成响应。" : String).data.head? = some 'A' from rfl] at h2
  rw [List.head?_append] at h2
  rw [show ("OpenAI API错误: " : String).data.head? = some 'O' from rfl] at h2
  simp at h2

lemma noChoices_ne_unexpected (e : String) : noChoicesText ≠ unexpectedErrorText e := by
  intro h
  have h2 := congrArg (fun s => s.data.head?) h
  simp only [noChoicesText, unexpectedErrorText, String.data_append] at h2
  rw [show ("AI没有生成响应。" : String).data.head? = some 'A' from rfl] at h2
  rw [List.head?_append] at h2
  rw [show ("请求处理错误: " : String).data.head? = some '请' from rfl] at h2
  simp at h2

lemma apiError_ne_unexpected (e e' : String) : apiErrorText e ≠ unexpectedErrorText e' := by
  intro h
  have h2 := congrArg (fun s => s.data.head?) h
  simp only [apiErrorText, unexpectedErrorText, String.data_append] at h2
  rw [List.head?_append, List.head?_append] at h2
  rw [show ("OpenAI API错误: " : String).data.head? = some 'O' from rfl] at h2
  rw [show ("请求处理错误: " : String).data.head? = some '请' from rfl] at h2
  simp at h2

/-! ### Claim theorems -/

/-- C7: for every message sequence and parameter set, `chat_completion` never
raises past its boundary and always returns a string (it is a total function
into `String`, every external failure being a constructor of
`CompletionOutcome`): the first generated choice text on success, and
otherwise error texts that distinguish the no-choices case, the
transport/auth (`APIError`) case and the unexpected-exception case from each
other. -/
theorem chat_completion_total_and_distinguishes
    (c : String) (messages : List Msg) (params : Option (List (String × PyVal)))
    (t : String) (rest : List String) (e e' : String) :
    chat_completion (some c) messages params (.success (t :: rest)) = t ∧
    chat_completion (some c) messages params (.success []) = noChoicesText ∧
    chat_completion (some c) messages params (.apiError e) = apiErrorText e ∧
    chat_completion (some c) messages params (.exn e) = unexpectedErrorText e ∧
    chat_completion none messages params (.success (t :: rest)) = noApiKeyText ∧
    noChoicesText ≠ apiErrorText e ∧
    noChoicesText ≠ unexpectedErrorText e ∧
    apiErrorText e ≠ unexpectedErrorText e' :=
  ⟨rfl, rfl, rfl, rfl, rfl,
   noChoices_ne_apiError e, noChoices_ne_unexpected e, apiError_ne_unexpected e e'⟩

/-- C8: for every candidate credential, `validate_api_key` returns a boolean
and never raises to the caller (total into `Bool`, exceptions being
constructors of `ValidationOutcome`): the lightweight `models.list()` call
succeeding yields `true`; an `APIError` (auth failure) or any other exception
(transport failure) yields `false`. -/
theorem validate_api_key_total_bool (e e' : String) :
    validate_api_key .ok = true ∧
    validate_api_key (.apiError e) = false ∧
    validate_api_key (.exn e') = false :=
  ⟨rfl, rfl, rfl⟩

/-- C4 counterexample: `"7.5"` denotes a float value (accepted for
`temperature`), yet `set_param` rejects it for `max_tokens`, because the
source coerces `max_tokens` with `int(...)`, not `float(...)`: the claim's
"float for ... `max_tokens`" and "a string denoting a float value is
accepted for every numeric parameter including `max_tokens`" fail. -/
theorem set_param_max_tokens_rejects_float_string :
    (pyFloat "7.5").isSome = true ∧
    set_param DEFAULT_AI_PARAMS "temperature" "7.5"
      = some (dictSet DEFAULT_AI_PARAMS "temperature" (.pfloat 75 1)) ∧
    set_param DEFAULT_AI_PARAMS "max_tokens" "7.5" = none := by
  refine ⟨by decide, by decide, by decide⟩

/-- C4 amended: `set_param` coerces the raw value to the parameter's declared
type — string for `model`; float for `temperature`, `top_p`,
`frequency_penalty` and `presence_penalty`; int (not float) for
`max_tokens` — and succeeds with the coerced value stored; a string denoting
a float value is accepted for the four float parameters, while `max_tokens`
accepts only integer strings. -/
theorem set_param_coerces_declared_types
    (ps : List (String × PyVal)) (v : String) (q : Int × Nat) (n : Int) :
    ((dictGet ps "model").isSome = true →
       set_param ps "model" v = some (dictSet ps "model" (.pstr v))) ∧
    ((dictGet ps "temperature").isSome = true → pyFloat v = some q →
       set_param ps "temperature" v
         = some (dictSet ps "temperature" (.pfloat q.1 q.2))) ∧
    ((dictGet ps "top_p").isSome = true → pyFloat v = some q →
       set_param ps "top_p" v = some (dictSet ps "top_p" (.pfloat q.1 q.2))) ∧
    ((dictGet ps "frequency_penalty").isSome = true → pyFloat v = some q →
       set_param ps "frequency_penalty" v
         = some (dictSet ps "frequency_penalty" (.pfloat q.1 q.2))) ∧
    ((dictGet ps "presence_penalty").isSome = true → pyFloat v = some q →
       set_param ps "presence_penalty" v
         = some (dictSet ps "presence_penalty" (.pfloat q.1 q.2))) ∧
    ((dictGet ps "max_tokens").isSome = true → pyInt v = some n →
       set_param ps "max_tokens" v = some (dictSet ps "max_tokens" (.pint n))) := by
  refine ⟨fun h => ?_, fun h hv => ?_, fun h hv => ?_, fun h hv => ?_,
          fun h hv => ?_, fun h hv => ?_⟩ <;>
    obtain ⟨x, hx⟩ := Option.isSome_iff_exists.mp h <;>
    simp [set_param, hx, *]

/-- C4 witness: the amended typing at concrete inputs. -/
theorem set_param_coerces_declared_types_witness :
    ((dictGet DEFAULT_AI_PARAMS "temperature").isSome = true ∧
       pyFloat "0.5" = some (5, 1) ∧
       set_param DEFAULT_AI_PARAMS "temperature" "0.5"
         = some (dictSet DEFAULT_AI_PARAMS "temperature" (.pfloat 5 1))) ∧
    ((dictGet DEFAULT_AI_PARAMS "max_tokens").isSome = true ∧
       pyInt "2000" = some 2000 ∧
       set_param DEFAULT_AI_PARAMS "max_tokens" "2000"
         = some (dictSet DEFAULT_AI_PARAMS "max_tokens" (.pint 2000))) :=
  ⟨⟨by decide, by decide,
    (set_param_coerces_declared_types DEFAULT_AI_PARAMS "0.5" (5, 1) 0).2.1
      (by decide) (by decide)⟩,
   ⟨by decide, by decide,
    (set_param_coerces_declared_types DEFAULT_AI_PARAMS "2000" (0, 0) 2000).2.2.2.2.2
      (by decide) (by decide)⟩⟩

/-- C5: `set_param` with an unknown parameter name, or with a value that the
declared type's coercion rejects, fails and leaves the stored mapping
unchanged (the `none` result is exactly the `return False` path before any
write, and `set_user_param` commits nothing on it); and
`set_param(.., "temperature", "0.5")` succeeds with the stored temperature
equal to 0.5 afterwards. -/
theorem set_param_failure_no_mutation_and_temperature
    (ps : List (String × PyVal)) (name v : String) (db : DBState) (tid : String)
    (htemp : (dictGet ps "temperature").isSome = true) :
    (dictGet ps name = none → set_param ps name v = none) ∧
    ((set_user_param db tid name v).1 = false → (set_user_param db tid name v).2 = db) ∧
    set_param ps "temperature" "not-a-number" = none ∧
    (set_param ps "temperature" "0.5" = some (dictSet ps "temperature" (.pfloat 5 1)) ∧
       dictGet (dictSet ps "temperature" (.pfloat 5 1)) "temperature"
         = some (.pfloat 5 1) ∧
       pfloatVal 5 1 = 1/2) := by
  obtain ⟨x, hx⟩ := Option.isSome_iff_exists.mp htemp
  refine ⟨fun h => by simp [set_param, h], ?_, ?_, ?_, dictGet_dictSet ps _ _, ?_⟩
  · intro h
    unfold set_user_param at h ⊢
    rcases hu : dbFindUser db tid with _ | u <;> simp only [hu] at h ⊢
    rcases hsp : set_param u.ai_params name v with _ | ps' <;> simp only [hsp] at h ⊢
    simp at h
  · simp [set_param, hx, show pyFloat "not-a-number" = none from by decide]
  · simp [set_param, hx, show pyFloat "0.5" = some ((5 : Int), (1 : Nat)) from by decide]
  · norm_num [pfloatVal]

/-- C5 witness: concrete instances for the hypotheses. -/
theorem set_param_failure_no_mutation_and_temperature_witness :
    ((dictGet DEFAULT_AI_PARAMS "temperature").isSome = true ∧
       dictGet DEFAULT_AI_PARAMS "bogus" = none ∧
       set_param DEFAULT_AI_PARAMS "bogus" "1" = none) ∧
    ((set_user_param dbChat "u" "temperature" "not-a-number").1 = false ∧
       (set_user_param dbChat "u" "temperature" "not-a-number").2 = dbChat) :=
  ⟨⟨by decide, by decide,
    (set_param_failure_no_mutation_and_temperature DEFAULT_AI_PARAMS "bogus" "1"
        dbChat "u" (by decide)).1 (by decide)⟩,
   ⟨by decide,
    (set_param_failure_no_mutation_and_temperature DEFAULT_AI_PARAMS "bogus" "1"
        dbChat "u" (by decide)).2.1 (by decide)⟩⟩

/-- C6: for every conversation in the store and every sequence of
`add_message` calls against it, `get_conversation_messages` returns the
previously stored messages followed by exactly the appended messages, in
call order, each with role and content unchanged. -/
theorem append_messages_preserve_order
    (db : DBState) (cid : Nat) (ms0 : List Msg) (appends : List Msg)
    (h : db.conversations.find? (fun p => p.1 == cid) = some (cid, ms0)) :
    get_conversation_messages
      (appends.foldl (fun d m => (add_message d cid m.role m.content).2) db) cid
      = ms0 ++ appends := by
  induction appends generalizing db ms0 with
  | nil => simp [get_conversation_messages, h, get_messages_for_api_id]
  | cons m rest ih =>
    simp only [List.foldl_cons]
    have h2 : ((add_message db cid m.role m.content).2).conversations.find?
        (fun p => p.1 == cid) = some (cid, ms0 ++ [⟨m.role, m.content⟩]) := by
      unfold add_message
      rw [if_pos (by simp [h])]
      exact find?_map_update db.conversations cid
        (fun l => l ++ [⟨m.role, m.content⟩]) ms0 h
    rw [ih _ _ h2]
    simp

/-- C6 witness: starting from the empty conversation 1, two appended turns
come back in order and verbatim. -/
theorem append_messages_preserve_order_witness :
    dbEmptyConv.conversations.find? (fun p => p.1 == 1) = some (1, []) ∧
    get_conversation_messages
      (([⟨"user", "hello"⟩, ⟨"assistant", "hi there"⟩] : List Msg).foldl
        (fun d m => (add_message d 1 m.role m.content).2) dbEmptyConv) 1
      = ([⟨"user", "hello"⟩, ⟨"assistant", "hi there"⟩] : List Msg) :=
  ⟨by decide,
   append_messages_preserve_order dbEmptyConv 1 []
     ([⟨"user", "hello"⟩, ⟨"assistant", "hi there"⟩] : List Msg) (by decide)⟩

/-- C9: in WAITING_PARAM_VALUE a free-text message applies the stored pending
parameter name with the (stripped) inbound value via `set_user_param`;
whether that succeeds or fails, the pending transitional data is cleared and
the session state becomes IDLE, with a success or failure message reported
either way. -/
theorem param_value_flow
    (w : World) (tid text : String) (validate : String → Bool)
    (complete : List Msg → Option (List (String × PyVal)) → String)
    (s : UserSession) (p : String × String)
    (hs : w.sessions.find? (fun q => q.1 == tid) = some (tid, s))
    (hstate : s.state = .WAITING_PARAM_VALUE)
    (hp : s.temp_data.find? (fun q => q.1 == "param") = some p) :
    let r := handle_message w tid text validate complete
    let res := set_user_param w.db tid p.2 (pyStrip text)
    r.world.db = res.2 ∧
    (r.world.sessions.find? (fun q => q.1 == tid)).map (fun q => q.2.state)
      = some .IDLE ∧
    (r.world.sessions.find? (fun q => q.1 == tid)).map (fun q => q.2.temp_data)
      = some [] ∧
    r.replies = [if res.1 = true
      then get_message (get_language w.db tid) "params_set_success"
             [("param", p.2), ("value", pyStrip text)]
      else get_message (get_language w.db tid) "params_invalid" []] := by
  have hupd := find?_map_update w.sessions tid
    (fun t => { t with state := .IDLE, temp_data := [] }) s hs
  simp only [handle_message, get_user_session, hs, hstate, hp, updateSession]
  refine ⟨trivial, ?_, ?_, trivial⟩ <;> simp only [hupd, Option.map_some']

/-- C9 witness: in `wParam` (pending parameter `temperature`) the value
`"0.5"` is applied, the pending data cleared, the state set to IDLE, and the
success message shown. -/
theorem param_value_flow_witness :
    (wParam.sessions.find? (fun q => q.1 == "u")
       = some ("u", { state := .WAITING_PARAM_VALUE,
                      temp_data := [("param", "temperature")] })) ∧
    (let r := handle_message wParam "u" "0.5" (fun _ => true) (fun _ _ => "R")
     let res := set_user_param wParam.db "u" "temperature" (pyStrip "0.5")
     r.world.db = res.2 ∧
     (r.world.sessions.find? (fun q => q.1 == "u")).map (fun q => q.2.state)
       = some .IDLE ∧
     (r.world.sessions.find? (fun q => q.1 == "u")).map (fun q => q.2.temp_data)
       = some [] ∧
     r.replies = [if res.1 = true
       then get_message (get_language wParam.db "u") "params_set_success"
              [("param", "temperature"), ("value", pyStrip "0.5")]
       else get_message (get_language wParam.db "u") "params_invalid" []]) :=
  ⟨by decide,
   param_value_flow wParam "u" "0.5" (fun _ => true) (fun _ _ => "R")
     { state := .WAITING_PARAM_VALUE, temp_data := [("param", "temperature")] }
     ("param", "temperature") (by decide) (by decide) (by decide)⟩

/-- C10 counterexample: in `wChat` the session state is CHATTING (not
SELECTING_LANGUAGE), yet the language-choice callback `lang_en` still
persists language "en" and moves the session to IDLE — refuting "no state
transition and no action in any other state". -/
theorem language_callback_ignores_state_counterexample :
    ((wChat.sessions.find? (fun p => p.1 == "u")).map (fun p => p.2.state)
       = some .CHATTING) ∧
    get_language wChat.db "u" = "zh" ∧
    (let r := handle_language_selection wChat "u" "lang_en"
     get_language r.world.db "u" = "en" ∧
     (r.world.sessions.find? (fun p => p.1 == "u")).map (fun p => p.2.state)
       = some .IDLE ∧
     r.replies = [get_message "en" "language_set" []]) := by
  decide

/-- C10 amended: a language-choice callback (data matching the registration
pattern `^lang_`) persists the selected language and moves the session to
IDLE regardless of the session's current state; the handler contains no
SELECTING_LANGUAGE guard. -/
theorem language_callback_any_state
    (w : World) (tid cb : String) (s : UserSession) (u : UserRec)
    (hs : w.sessions.find? (fun q => q.1 == tid) = some (tid, s))
    (hu : w.db.users.find? (fun q => q.1 == tid) = some (tid, u))
    (hcb : pyStartsWith cb "lang_" = true) :
    let r := handle_language_selection w tid cb
    let code := pySliceFrom cb 5
    ((r.world.db.users.find? (fun q => q.1 == tid)).map
        (fun q => q.2.language_code) = some code) ∧
    ((r.world.sessions.find? (fun q => q.1 == tid)).map (fun q => q.2.state)
       = some .IDLE) ∧
    r.replies = [get_message code "language_set" []] := by
  have husers := find?_map_update w.db.users tid
    (fun v => { v with language_code := pySliceFrom cb 5 }) u hu
  have hsess := find?_map_update w.sessions tid
    (fun t => { t with state := .IDLE }) s hs
  simp only [handle_language_selection, hcb, if_true, set_language, dbFindUser,
    dbUpdateUser, get_user_session, hs, updateSession, hu, Option.map_some',
    Option.isSome_some]
  refine ⟨?_, ?_, trivial⟩ <;> simp only [husers, hsess, Option.map_some']

/-- C10 amended witness: the callback `lang_en` on the CHATTING world. -/
theorem language_callback_any_state_witness :
    (wChat.sessions.find? (fun q => q.1 == "u")
       = some ("u", { state := .CHATTING, conversation_id := some 1 })) ∧
    (wChat.db.users.find? (fun q => q.1 == "u") = some ("u", uDefault)) ∧
    (pyStartsWith "lang_en" "lang_" = true) ∧
    (let r := handle_language_selection wChat "u" "lang_en"
     let code := pySliceFrom "lang_en" 5
     ((r.world.db.users.find? (fun q => q.1 == "u")).map
         (fun q => q.2.language_code) = some code) ∧
     ((r.world.sessions.find? (fun q => q.1 == "u")).map (fun q => q.2.state)
        = some .IDLE) ∧
     r.replies = [get_message code "language_set" []]) :=
  ⟨by decide, by decide, by decide,
   language_callback_any_state wChat "u" "lang_en"
     { state := .CHATTING, conversation_id := some 1 } uDefault
     (by decide) (by decide) (by decide)⟩

lemma find?_key_eq {α β : Type} [BEq α] [LawfulBEq α] {l : List (α × β)} {k : α}
    {q : α × β} (h : l.find? (fun p => p.1 == k) = some q) : q.1 = k := by
  have h2 := List.find?_some (p := fun p : α × β => p.1 == k) h
  exact eq_of_beq h2

/-- C2: in WAITING_API_KEY a free-text message is validated as a credential
via the Completion Gateway (the `validate` oracle); on success the stripped
credential is persisted, the cached AI client is refreshed to it, a fresh
conversation is created and bound to the session, the state becomes
CHATTING and the success text is shown; on failure the world is untouched
(state stays WAITING_API_KEY) and the user is told the credential is
invalid. -/
theorem api_key_validation_flow
    (w : World) (tid text : String) (validate : String → Bool)
    (complete : List Msg → Option (List (String × PyVal)) → String)
    (s : UserSession) (u : UserRec)
    (hs : w.sessions.find? (fun q => q.1 == tid) = some (tid, s))
    (hstate : s.state = .WAITING_API_KEY)
    (hu : w.db.users.find? (fun q => q.1 == tid) = some (tid, u))
    (hnz : w.db.nextConvId ≠ 0)
    (hfresh : w.db.conversations.find? (fun q => q.1 == w.db.nextConvId) = none) :
    let r := handle_message w tid text validate complete
    let key := pyStrip text
    (validate key = true →
       get_api_key r.world.db tid = some key ∧
       (r.world.ai_services.find? (fun q => q.1 == tid)).map (fun q => q.2)
         = some (some key) ∧
       r.world.db.conversations.find? (fun q => q.1 == w.db.nextConvId)
         = some (w.db.nextConvId, []) ∧
       r.world.db.nextConvId = w.db.nextConvId + 1 ∧
       (r.world.sessions.find? (fun q => q.1 == tid)).map (fun q => q.2.state)
         = some .CHATTING ∧
       (r.world.sessions.find? (fun q => q.1 == tid)).map
           (fun q => q.2.conversation_id) = some (some w.db.nextConvId) ∧
       r.replies.getLast?
         = some (get_message (get_language w.db tid) "api_set_success" [])) ∧
    (validate key = false →
       r.world = w ∧
       (r.world.sessions.find? (fun q => q.1 == tid)).map (fun q => q.2.state)
         = some .WAITING_API_KEY ∧
       r.replies.getLast?
         = some (get_message (get_language w.db tid) "api_invalid" [])) := by
  simp only [handle_message, get_user_session, hs, hstate]
  refine ⟨fun hv => ?_, fun hv => ?_⟩
  · simp only [hv, if_true]
    have hu2 := find?_map_update w.db.users tid
      (fun v => { v with api_key := some (pyStrip text) }) u hu
    have hs2 := find?_map_update w.sessions tid
      (fun t => { t with conversation_id := some w.db.nextConvId }) s hs
    have hs3 := find?_map_update _ tid
      (fun t => { t with state := .CHATTING }) _ hs2
    rcases hsvc : w.ai_services.find? (fun q => q.1 == tid) with _ | q
    · simp only [set_api_key, dbFindUser, hu, hu2, Option.map_some',
        Option.isSome_some, if_true, dbUpdateUser, update_ai_service, hsvc,
        Option.isSome_none, Bool.false_eq_true, if_false,
        sm_create_conversation, create_conversation, get_user_session, hs,
        updateSession, get_api_key, hs2, hs3, ne_eq, hnz, not_false_eq_true,
        List.find?_append, hfresh, Option.bind_some]
      simp
    · obtain ⟨qa, qb⟩ := q
      have hqa : qa = tid := find?_key_eq hsvc
      rw [hqa] at hsvc
      have hsvc2 := find?_map_update w.ai_services tid
        (fun x => some (pyStrip text)) qb hsvc
      simp only [set_api_key, dbFindUser, hu, hu2, Option.map_some',
        Option.isSome_some, if_true, dbUpdateUser, update_ai_service, hsvc,
        sm_create_conversation, create_conversation, get_user_session, hs,
        updateSession, get_api_key, hs2, hs3, hsvc2, ne_eq, hnz,
        not_false_eq_true, List.find?_append, hfresh, Option.bind_some]
      simp
  · simp only [hv, Bool.false_eq_true, if_false]
    refine ⟨trivial, ?_, rfl⟩
    simp [hs, hstate]

/-- C2 witness: in `wKey` (user `"u"` awaiting an API key) with an oracle
that accepts every key, the concrete flow instantiates both branches of the
theorem. -/
theorem api_key_validation_flow_witness :
    (wKey.sessions.find? (fun q => q.1 == "u")
       = some ("u", { state := .WAITING_API_KEY })) ∧
    (wKey.db.users.find? (fun q => q.1 == "u") = some ("u", uDefault)) ∧
    wKey.db.nextConvId ≠ 0 ∧
    (wKey.db.conversations.find? (fun q => q.1 == wKey.db.nextConvId) = none) ∧
    (let r := handle_message wKey "u" " sk-1 " (fun _ => true) (fun _ _ => "R")
     let key := pyStrip " sk-1 "
     ((fun _ : String => true) key = true →
        get_api_key r.world.db "u" = some key ∧
        (r.world.ai_services.find? (fun q => q.1 == "u")).map (fun q => q.2)
          = some (some key) ∧
        r.world.db.conversations.find? (fun q => q.1 == wKey.db.nextConvId)
          = some (wKey.db.nextConvId, []) ∧
        r.world.db.nextConvId = wKey.db.nextConvId + 1 ∧
        (r.world.sessions.find? (fun q => q.1 == "u")).map (fun q => q.2.state)
          = some .CHATTING ∧
        (r.world.sessions.find? (fun q => q.1 == "u")).map
            (fun q => q.2.conversation_id) = some (some wKey.db.nextConvId) ∧
        r.replies.getLast?
          = some (get_message (get_language wKey.db "u") "api_set_success" [])) ∧
     ((fun _ : String => true) key = false →
        r.world = wKey ∧
        (r.world.sessions.find? (fun q => q.1 == "u")).map (fun q => q.2.state)
          = some .WAITING_API_KEY ∧
        r.replies.getLast?
          = some (get_message (get_language wKey.db "u") "api_invalid" []))) :=
  ⟨by decide, by decide, by decide, by decide,
   api_key_validation_flow wKey "u" " sk-1 " (fun _ => true) (fun _ _ => "R")
     { state := .WAITING_API_KEY } uDefault
     (by decide) (by decide) (by decide) (by decide) (by decide)⟩

/-- Frame fact: `get_user_settings` reads only the `users` column. -/
lemma get_user_settings_conv_irrel (db : DBState) (cs : List (Nat × List Msg))
    (n : Nat) (tid : String) :
    get_user_settings { users := db.users, conversations := cs, nextConvId := n } tid
      = get_user_settings db tid := rfl

/-- C1: in CHATTING with a bound conversation, a free-text turn appends the
inbound text as a `user` message before the gateway is invoked — the single
gateway call receives the stored history already ending in that message —
appends the gateway's returned text as an `assistant` message after it
returns, and the user-visible reply (the final edit) equals exactly the
gateway's returned text. -/
theorem chatting_turn_flow
    (w : World) (tid text : String) (validate : String → Bool)
    (complete : List Msg → Option (List (String × PyVal)) → String)
    (s : UserSession) (cid : Nat) (ms : List Msg)
    (hs : w.sessions.find? (fun q => q.1 == tid) = some (tid, s))
    (hstate : s.state = .CHATTING)
    (hcid : s.conversation_id = some cid)
    (hnz : cid ≠ 0)
    (hconv : w.db.conversations.find? (fun q => q.1 == cid) = some (cid, ms)) :
    let r := handle_message w tid text validate complete
    let hist := ms ++ [⟨"user", text⟩]
    let reply := complete hist (get_user_settings w.db tid)
    r.gatewayCall = some (hist, get_user_settings w.db tid) ∧
    get_conversation_messages r.world.db cid = hist ++ [⟨"assistant", reply⟩] ∧
    r.replies.getLast? = some reply := by
  have hconv2 := find?_map_update w.db.conversations cid
    (fun l => l ++ [⟨"user", text⟩]) ms hconv
  have hconv3 := find?_map_update _ cid
    (fun l => l ++
      [⟨"assistant", complete (ms ++ [⟨"user", text⟩]) (get_user_settings w.db tid)⟩])
    _ hconv2
  have hb : (cid != 0) = true := by simp [hnz]
  rcases hsvc : w.ai_services.find? (fun q => q.1 == tid) with _ | q <;>
    simp only [handle_message, get_user_session, hs, hstate, chat_turn,
      Bool.false_eq_true, if_false, chat_turn_bound, hcid, truthyId,
      Option.map_some', Option.getD_some, hb, Bool.not_true,
      chat_turn_core, add_message, hconv,
      Option.isSome_some, if_true, get_conversation_messages, hconv2,
      get_messages_for_api_id, get_user_settings_conv_irrel, get_ai_service,
      hsvc, hconv3] <;>
    simp

/-- C1 witness: the concrete CHATTING turn "hello" on `wChat` with a gateway
answering "hi there". -/
theorem chatting_turn_flow_witness :
    (wChat.sessions.find? (fun q => q.1 == "u")
       = some ("u", { state := .CHATTING, conversation_id := some 1 })) ∧
    (1 : Nat) ≠ 0 ∧
    (wChat.db.conversations.find? (fun q => q.1 == 1)
       = some (1, [⟨"user", "hi"⟩, ⟨"assistant", "yo"⟩])) ∧
    (let r := handle_message wChat "u" "hello" (fun _ => true) (fun _ _ => "hi there")
     let hist := ([⟨"user", "hi"⟩, ⟨"assistant", "yo"⟩] : List Msg) ++ [⟨"user", "hello"⟩]
     let reply := (fun (_ : List Msg) (_ : Option (List (String × PyVal))) => "hi there")
       hist (get_user_settings wChat.db "u")
     r.gatewayCall = some (hist, get_user_settings wChat.db "u") ∧
     get_conversation_messages r.world.db 1 = hist ++ [⟨"assistant", reply⟩] ∧
     r.replies.getLast? = some reply) :=
  ⟨by decide, by decide, by decide,
   chatting_turn_flow wChat "u" "hello" (fun _ => true) (fun _ _ => "hi there")
     { state := .CHATTING, conversation_id := some 1 } 1
     [⟨"user", "hi"⟩, ⟨"assistant", "yo"⟩]
     (by decide) (by decide) (by decide) (by decide) (by decide)⟩

/-- C3 counterexample: in `wIdle` the session already holds the bound
conversation handle 1, yet the IDLE chat turn creates a brand-new
conversation 2 (the store's next key moves from 2 to 3) and rebinds the
session to it, running the turn there — refuting "if a handle is already
bound it is reused and no new conversation is created". -/
theorem idle_turn_creates_new_conversation_counterexample :
    ((wIdle.sessions.find? (fun q => q.1 == "u")).map
        (fun q => q.2.conversation_id) = some (some 1)) ∧
    ((wIdle.sessions.find? (fun q => q.1 == "u")).map (fun q => q.2.state)
       = some .IDLE) ∧
    wIdle.db.nextConvId = 2 ∧
    (let r := handle_message wIdle "u" "hello" (fun _ => true) (fun _ _ => "R")
     r.world.db.nextConvId = 3 ∧
     (r.world.sessions.find? (fun q => q.1 == "u")).map
         (fun q => q.2.conversation_id) = some (some 2) ∧
     r.world.db.conversations.find? (fun q => q.1 == 2)
       = some (2, [⟨"user", "hello"⟩, ⟨"assistant", "R"⟩])) := by
  decide

/-- C3 amended: in IDLE a free-text chat turn unconditionally creates a new
conversation and binds it to the session — replacing any previously bound
handle — before transitioning to CHATTING; the turn then runs on that fresh
conversation. (Reuse-if-bound only happens when the state is already
CHATTING.) -/
theorem idle_turn_always_creates
    (w : World) (tid text : String) (validate : String → Bool)
    (complete : List Msg → Option (List (String × PyVal)) → String)
    (s : UserSession) (u : UserRec)
    (hs : w.sessions.find? (fun q => q.1 == tid) = some (tid, s))
    (hstate : s.state = .IDLE)
    (hu : w.db.users.find? (fun q => q.1 == tid) = some (tid, u))
    (hnz : w.db.nextConvId ≠ 0)
    (hfresh : w.db.conversations.find? (fun q => q.1 == w.db.nextConvId) = none) :
    let r := handle_message w tid text validate complete
    r.world.db.nextConvId = w.db.nextConvId + 1 ∧
    (r.world.sessions.find? (fun q => q.1 == tid)).map
        (fun q => q.2.conversation_id) = some (some w.db.nextConvId) ∧
    (r.world.sessions.find? (fun q => q.1 == tid)).map (fun q => q.2.state)
      = some .CHATTING ∧
    r.world.db.conversations.find? (fun q => q.1 == w.db.nextConvId)
      = some (w.db.nextConvId,
          [⟨"user", text⟩,
           ⟨"assistant", complete [⟨"user", text⟩] (get_user_settings w.db tid)⟩]) := by
  have hb : (w.db.nextConvId != 0) = true := by simp [hnz]
  have hconvN : (w.db.conversations ++ [(w.db.nextConvId, [])]).find?
      (fun q => q.1 == w.db.nextConvId) = some (w.db.nextConvId, []) := by
    simp [List.find?_append, hfresh]
  have hconvU := find?_map_update (w.db.conversations ++ [(w.db.nextConvId, [])])
    w.db.nextConvId (fun l => l ++ [⟨"user", text⟩]) [] hconvN
  have hconvA := find?_map_update _ w.db.nextConvId
    (fun l => l ++
      [⟨"assistant", complete [⟨"user", text⟩] (get_user_settings w.db tid)⟩])
    _ hconvU
  have hs2 := find?_map_update w.sessions tid
    (fun t => { t with conversation_id := some w.db.nextConvId }) s hs
  have hs3 := find?_map_update _ tid
    (fun t => { t with state := .CHATTING }) _ hs2
  rcases hsvc : w.ai_services.find? (fun q => q.1 == tid) with _ | q <;>
    simp only [handle_message, get_user_session, hs, hstate, chat_turn,
      sm_create_conversation, create_conversation, dbFindUser, hu,
      Option.map_some', Option.isSome_some, if_true, updateSession, hs2, hs3,
      ne_eq, hnz, not_false_eq_true, truthyId, hb, Bool.not_true,
      Bool.false_eq_true, if_false, chat_turn_bound, Option.getD_some,
      chat_turn_core, add_message, hconvN, hconvU, hconvA,
      get_conversation_messages, get_messages_for_api_id, List.nil_append,
      get_user_settings_conv_irrel, get_ai_service, hsvc] <;>
    exact ⟨trivial, trivial, trivial, by simp⟩

/-- C3 amended witness: the IDLE turn on `wIdle`, whose session already holds
handle 1, creates and binds conversation 2. -/
theorem idle_turn_always_creates_witness :
    (wIdle.sessions.find? (fun q => q.1 == "u")
       = some ("u", { state := .IDLE, conversation_id := some 1 })) ∧
    (wIdle.db.users.find? (fun q => q.1 == "u") = some ("u", uDefault)) ∧
    wIdle.db.nextConvId ≠ 0 ∧
    (wIdle.db.conversations.find? (fun q => q.1 == wIdle.db.nextConvId) = none) ∧
    (let r := handle_message wIdle "u" "hello" (fun _ => true) (fun _ _ => "R")
     r.world.db.nextConvId = wIdle.db.nextConvId + 1 ∧
     (r.world.sessions.find? (fun q => q.1 == "u")).map
         (fun q => q.2.conversation_id) = some (some wIdle.db.nextConvId) ∧
     (r.world.sessions.find? (fun q => q.1 == "u")).map (fun q => q.2.state)
       = some .CHATTING ∧
     r.world.db.conversations.find? (fun q => q.1 == wIdle.db.nextConvId)
       = some (wIdle.db.nextConvId,
           [⟨"user", "hello"⟩,
            ⟨"assistant",
             (fun (_ : List Msg) (_ : Option (List (String × PyVal))) => "R")
               [⟨"user", "hello"⟩] (get_user_settings wIdle.db "u")⟩])) :=
  ⟨by decide, by decide, by decide, by decide,
   idle_turn_always_creates wIdle "u" "hello" (fun _ => true) (fun _ _ => "R")
     { state := .IDLE, conversation_id := some 1 } uDefault
     (by decide) (by decide) (by decide) (by decide) (by decide)⟩

/-! ### Evaluation checks of the embedded operations -/

example : pyFloat "0.5" = some (5, 1) := by decide
example : pyFloat "not-a-number" = none := by decide
example : pyInt "7.5" = none := by decide
example : pyFloat "7.5" = some (75, 1) := by decide
example : pyFloat "-1.50" = some (-15, 1) := by decide
example : pyFloat "1.0" = some (1, 0) := by decide
example : pyFloat "." = none := by decide
example : pyFloat ".5" = some (5, 1) := by decide
example : pyInt "12" = some 12 := by decide
example : pyInt "-3" = some (-3) := by decide
example : (set_param DEFAULT_AI_PARAMS "temperature" "0.5").isSome = true := by decide
example : set_param DEFAULT_AI_PARAMS "max_tokens" "7.5" = none := by decide
example : set_param DEFAULT_AI_PARAMS "bogus" "1" = none := by decide
example : set_param DEFAULT_AI_PARAMS "temperature" "not-a-number" = none := by decide
example : get_message "zh" "processing" [] = "正在处理您的请求..." := by decide
example : get_message "fr" "processing" [] = "正在处理您的请求..." := by decide
example : get_message "en" "params_set_success" [("param", "temperature"), ("value", "0.5")]
    = "Parameter temperature has been updated to 0.5" := by decide
